import Mathlib

/-!
# Verification of the voice-bot front-end core logic

A shallow embedding of the conversation state machine, transcript log,
audio-level sampler and connection lifecycle of the voice-bot repository.

Two variants are modelled, following the two source revisions:

* `Mock` — the fully mocked variant (`src/app/page.tsx`): timers simulate
  the connection delay, processing delay and bot speech; the audio level is
  a pseudo-random value written on a 100 ms interval.
* `LK` — the live-transport variant (`src/unnamed/part_002`): the connect
  operation fetches a credential from the token endpoint and registers a
  room handle; the synchronous part of each handler is modelled, with the
  outcomes of the awaited calls passed in as explicit parameters.

The token endpoint (`src/unnamed/part_003`) is modelled in namespace
`TokenApi`.

Asynchrony is modelled by explicit event queues: a handler that calls
`setTimeout` appends a `TimerCb` to a pending list; firing a timer pops it
and runs the corresponding callback, exactly as the single-threaded event
loop does.  JavaScript string falsiness (`!s`) is modelled as
"`none` or the empty string".
-/

namespace Mock

/-- Utterance roles, from the `Message` interface of `src/app/page.tsx`. -/
inductive Role where
  | user
  | bot
  | system
deriving DecidableEq, Repr

/-- One transcript entry: `{ role, text, timestamp }` of `src/app/page.tsx`.
Timestamps (`new Date()`) are modelled as natural-number instants supplied
by the caller. -/
structure Message where
  role : Role
  text : String
  timestamp : Nat
deriving DecidableEq, Repr

/-- The four values of the `botState` React state in `src/app/page.tsx`. -/
inductive BotState where
  | idle
  | listening
  | processing
  | speaking
deriving DecidableEq, Repr

/-- The timer callbacks the mocked variant can schedule with `setTimeout`:
the connection-delay callback of `handleConnect` (1500 ms), the
processing-delay callback of `toggleRecording` (1500 ms), and the nested
speaking-completion callback (3000 ms). -/
inductive TimerCb where
  | connectDone
  | processingDone
  | speakingDone
deriving DecidableEq, Repr

/-- The React state of `VoiceBotApp` in `src/app/page.tsx` relevant to the
core logic, together with the interval ref and the queue of pending
`setTimeout` callbacks.  `intervalActive` models whether `intervalRef`
currently holds a live interval; `pending` models the scheduled timeouts
(disconnect clears the interval but never these). -/
structure AppState where
  botState : BotState
  isConnected : Bool
  audioLevel : ℚ
  transcript : List Message
  intervalActive : Bool
  pending : List TimerCb
deriving DecidableEq, Repr

/-- The initial React state: `idle`, disconnected, level 0, empty transcript. -/
def initState : AppState :=
  { botState := .idle
    isConnected := false
    audioLevel := 0
    transcript := []
    intervalActive := false
    pending := [] }

/-- `addMessage` of `src/app/page.tsx` (lines 153-155): appends
`{ role, text, timestamp: new Date() }` to the transcript. -/
def addMessage (role : Role) (text : String) (now : Nat) (s : AppState) : AppState :=
  { s with transcript := s.transcript ++ [{ role := role, text := text, timestamp := now }] }

/-- `lastMessage` of `src/app/page.tsx` (lines 165-166):
`transcript.length > 0 ? transcript[transcript.length - 1] : null`. -/
def lastMessage (s : AppState) : Option Message :=
  if s.transcript.length > 0 then s.transcript[s.transcript.length - 1]? else none

/-- The interval period of `simulateVoiceActivity` (`setInterval(..., 100)`). -/
def samplerPeriodMs : Nat := 100

/-- The body of the `setInterval` callback in `simulateVoiceActivity`
(lines 147-150): `0.3 + Math.random() * 0.7`, where `r` is the value
returned by `Math.random()` (a uniform draw from `[0, 1)`). -/
def newLevel (r : ℚ) : ℚ := 3/10 + r * (7/10)

/-- One tick of the synthetic sampler: writes `newLevel r` to the shared
audio-level slot. -/
def samplerTick (r : ℚ) (s : AppState) : AppState :=
  { s with audioLevel := newLevel r }

/-- `simulateVoiceActivity` (lines 144-151): clears any previous interval
and starts a fresh one.  In the model the single interval slot simply
becomes active. -/
def simulateVoiceActivity (s : AppState) : AppState :=
  { s with intervalActive := true }

/-- `handleConnect` (lines 92-101), synchronous part: sets state to
`processing` and schedules the 1500 ms connection-delay callback. -/
def handleConnect (s : AppState) : AppState :=
  { s with botState := .processing, pending := s.pending ++ [.connectDone] }

/-- `handleDisconnect` (lines 103-109): clears the connected flag, resets
state to `idle` and the audio level to 0, clears the interval if one is
running, and appends the system message `"Disconnected."`.  It does not
cancel pending `setTimeout` callbacks. -/
def handleDisconnect (now : Nat) (s : AppState) : AppState :=
  addMessage .system "Disconnected." now
    { s with isConnected := false
             botState := .idle
             audioLevel := 0
             intervalActive := false }

/-- `toggleRecording` (lines 111-142), synchronous part.  Disconnected:
return immediately.  `listening`: go to `processing`, clear the interval,
reset the level, schedule the 1500 ms processing callback.  Any other
state: go to `listening` and start the sampler. -/
def toggleRecording (s : AppState) : AppState :=
  if !s.isConnected then s
  else if s.botState = .listening then
    { s with botState := .processing
             intervalActive := false
             audioLevel := 0
             pending := s.pending ++ [.processingDone] }
  else
    simulateVoiceActivity { s with botState := .listening }

/-- The fixed placeholder user text of the mocked response (line 123). -/
def userText : String := "Hello, I'd like to know more about the service."

/-- The fixed bot response text (lines 129-130). -/
def botText : String :=
  "I can certainly help with that. What specific features are you interested in?"

/-- Runs one scheduled timer callback, exactly as its `setTimeout` body in
`src/app/page.tsx` executes:

* `connectDone` (lines 96-100): set connected, state `idle`, append the
  system connection message;
* `processingDone` (lines 121-136): state `speaking`, append the user
  utterance, start the sampler, schedule the 3000 ms callback;
* `speakingDone` (lines 128-135): append the bot utterance, state `idle`,
  clear the interval, reset the level.

None of the bodies re-checks `isConnected`. -/
def runTimerCb (cb : TimerCb) (now : Nat) (s : AppState) : AppState :=
  match cb with
  | .connectDone =>
      addMessage .system "Connected to HF Inference Model." now
        { s with isConnected := true, botState := .idle }
  | .processingDone =>
      let s1 := addMessage .user userText now { s with botState := .speaking }
      let s2 := simulateVoiceActivity s1
      { s2 with pending := s2.pending ++ [.speakingDone] }
  | .speakingDone =>
      let s1 := addMessage .bot botText now s
      { s1 with botState := .idle, intervalActive := false, audioLevel := 0 }

/-- The event loop fires the oldest pending timeout: pop it and run its
callback (a no-op when nothing is pending). -/
def fireNextTimer (now : Nat) (s : AppState) : AppState :=
  match s.pending with
  | [] => s
  | cb :: rest => runTimerCb cb now { s with pending := rest }

end Mock

namespace LK

/-- Room handles of the live variant.  The code only ever stores the one
room it constructs in `handleConnect` (`new Room({...})`), so a single
opaque-to-the-caller value suffices; `roomRef` holds `some room` exactly
when `roomRef.current` is non-null. -/
inductive Room where
  | room
deriving DecidableEq, Repr

/-- The React state of `VoiceBotApp` in `src/unnamed/part_002` relevant to
the connection lifecycle, together with the room ref and the
animation-frame flag of the real visualizer. -/
structure LKState where
  botState : Mock.BotState
  isConnected : Bool
  audioLevel : ℚ
  transcript : List Mock.Message
  roomRef : Option Room
  animationFrameActive : Bool
deriving DecidableEq, Repr

/-- The initial React state of the live variant. -/
def initState : LKState :=
  { botState := .idle
    isConnected := false
    audioLevel := 0
    transcript := []
    roomRef := none
    animationFrameActive := false }

/-- `addMessage` of `src/unnamed/part_002` (lines 262-264). -/
def addMessage (role : Mock.Role) (text : String) (now : Nat) (s : LKState) : LKState :=
  { s with transcript := s.transcript ++ [{ role := role, text := text, timestamp := now }] }

/-- Outcome of `await fetch("/api/token")` followed by `response.json()`
in `handleConnect`:

* `fetchError msg` — the fetch or the JSON parse rejected with `msg`;
* `gotToken tok` — the parse succeeded and `data.accessToken` was `tok`
  (`none` when the field is absent; `some ""` is falsy to the
  `if (!token)` check just like absence). -/
inductive FetchResult where
  | fetchError (msg : String)
  | gotToken (tok : Option String)
deriving DecidableEq, Repr

/-- JavaScript string falsiness for an optional string: `!x` is true
exactly when the value is absent or the empty string. -/
def jsFalsy : Option String → Bool
  | none => true
  | some s => s = ""

/-- The `catch` block of `handleConnect` (lines 169-173): state `idle` and
a system message `"Connection failed: " ++ msg`.  It does not touch
`roomRef`. -/
def connectCatch (msg : String) (now : Nat) (s : LKState) : LKState :=
  addMessage .system ("Connection failed: " ++ msg) now { s with botState := .idle }

/-- `handleConnect` of `src/unnamed/part_002` (lines 103-174), synchronous
effects, with the outcomes of the two awaited calls passed in:
`fr` is the token fetch outcome and `connectErr` the outcome of
`await room.connect(url, token)` (`none` = resolved, `some msg` =
rejected with `msg`).

The body sets state `processing` and appends `"Connecting to Server..."`,
then fetches the token.  A rejected fetch hits the catch block before
`roomRef` is assigned.  A falsy token throws `"No token received"`,
likewise before `roomRef` is assigned.  Otherwise `roomRef.current = room`
(line 125) happens first, and only then `room.connect` may reject: its
rejection reaches the same catch block with `roomRef` still holding the
room.  On success nothing more happens synchronously (the connected flag
and success message arrive via the `RoomEvent.Connected` handler). -/
def handleConnect (fr : FetchResult) (connectErr : Option String) (now : Nat)
    (s : LKState) : LKState :=
  let s1 := addMessage .system "Connecting to Server..." now { s with botState := .processing }
  match fr with
  | .fetchError msg => connectCatch msg now s1
  | .gotToken tok =>
      if jsFalsy tok then connectCatch "No token received" now s1
      else
        let s2 := { s1 with roomRef := some .room }
        match connectErr with
        | some msg => connectCatch msg now s2
        | none => s2

/-- The `RoomEvent.Disconnected` handler registered in `handleConnect`
(lines 135-139): clears the connected flag, resets state to `idle`, and
appends the system message `"Disconnected."`. -/
def onRoomDisconnected (now : Nat) (s : LKState) : LKState :=
  addMessage .system "Disconnected." now { s with isConnected := false, botState := .idle }

/-- `handleDisconnect` of `src/unnamed/part_002` (lines 176-184): if a
room handle exists, disconnect it and null the ref; clear the connected
flag, reset the level to 0, and cancel the animation frame if one is
running.  It appends nothing itself and leaves `botState` untouched. -/
def handleDisconnect (s : LKState) : LKState :=
  { s with roomRef := none
           isConnected := false
           audioLevel := 0
           animationFrameActive := false }

/-- `toggleRecording` of `src/unnamed/part_002` (lines 188-223),
synchronous effects; `micOk` is the outcome of
`setMicrophoneEnabled(true)` in the start branch (`false` = rejected).
Disconnected or no room: return immediately.  `listening`: unpublish,
state `processing`, level 0, cancel the animation frame.  Any other
state: state `listening`, then publish the microphone; on rejection
append `"Microphone access denied."` and fall back to `idle`. -/
def toggleRecording (micOk : Bool) (now : Nat) (s : LKState) : LKState :=
  if !s.isConnected || s.roomRef = none then s
  else if s.botState = .listening then
    { s with botState := .processing
             audioLevel := 0
             animationFrameActive := false }
  else
    let s1 := { s with botState := .listening }
    if micOk then { s1 with animationFrameActive := true }
    else addMessage .system "Microphone access denied." now { s1 with botState := .idle }

end LK

namespace TokenApi

/-- The content of the `AccessToken` the route builds: the participant
identity passed to the constructor and the single grant added with
`addGrant` (lines 16-25). -/
structure AccessTokenValue where
  identity : String
  roomJoin : Bool
  room : String
  canPublish : Bool
  canSubscribe : Bool
deriving DecidableEq, Repr

/-- The body of a `NextResponse.json` result of the token route
(`src/unnamed/part_003`): either `{ accessToken }` with status 200, or
`{ error }` with an explicit status. -/
inductive TokenResponse where
  | ok (accessToken : AccessTokenValue)
  | err (status : Nat) (error : String)
deriving DecidableEq, Repr

/-- The GET handler of `src/unnamed/part_003`.  `apiKey` and `apiSecret`
are the two environment variables (absent = `none`); `randSuffix` is the
value of `Math.random().toString(36).substring(7)` used for the identity.
Missing (falsy) credentials yield status 500 with
`{ error: "Server misconfigured" }`; otherwise the issued token carries
identity `"user-" ++ randSuffix` and a grant for room `"voice-bot-room"`
with join, publish and subscribe permissions. -/
def GET (apiKey apiSecret : Option String) (randSuffix : String) : TokenResponse :=
  if LK.jsFalsy apiKey || LK.jsFalsy apiSecret then
    .err 500 "Server misconfigured"
  else
    .ok { identity := "user-" ++ randSuffix
          roomJoin := true
          room := "voice-bot-room"
          canPublish := true
          canSubscribe := true }

end TokenApi

/-! ## Claims -/

/-- C1 (counterexample): in a connected session in `processing`, the speak
toggle does not leave the state unchanged — it enters the START-RECORDING
branch, setting the state to `listening` and starting the sampler. -/
theorem toggle_while_processing_not_noop :
    (Mock.toggleRecording
        { Mock.initState with isConnected := true, botState := .processing }).botState
      = .listening
    ∧ Mock.toggleRecording
        { Mock.initState with isConnected := true, botState := .processing }
      ≠ { Mock.initState with isConnected := true, botState := .processing } := by
  decide

/-- C1 (amended): for every connected session, a speak-toggle received
while the state is `processing` or `speaking` does not leave the state
unchanged: the toggle falls into the start-recording branch, so the state
becomes `listening` and the sampler interval is started. -/
theorem toggle_while_busy_starts_listening (s : Mock.AppState)
    (hc : s.isConnected = true)
    (h : s.botState = .processing ∨ s.botState = .speaking) :
    (Mock.toggleRecording s).botState = .listening
      ∧ (Mock.toggleRecording s).intervalActive = true := by
  rcases h with h | h <;>
    simp [Mock.toggleRecording, Mock.simulateVoiceActivity, hc, h]

/-- C1 witness: the amended statement at a concrete connected
`processing` state. -/
theorem toggle_while_busy_starts_listening_witness :
    ({ Mock.initState with isConnected := true, botState := .processing }
        : Mock.AppState).isConnected = true
    ∧ (({ Mock.initState with isConnected := true, botState := .processing }
        : Mock.AppState).botState = .processing
        ∨ ({ Mock.initState with isConnected := true, botState := .processing }
        : Mock.AppState).botState = .speaking)
    ∧ ((Mock.toggleRecording
          { Mock.initState with isConnected := true, botState := .processing }).botState
        = .listening
      ∧ (Mock.toggleRecording
          { Mock.initState with isConnected := true, botState := .processing }).intervalActive
        = true) :=
  ⟨rfl, Or.inl rfl,
    toggle_while_busy_starts_listening _ rfl (Or.inl rfl)⟩

/-- C2: while disconnected, the speak toggle is a complete no-op: the
whole application state (conversation state, audio level, transcript,
interval, pending timers) is returned unchanged, and the function is
total, so no error is raised. -/
theorem toggle_disconnected_noop (s : Mock.AppState)
    (h : s.isConnected = false) :
    Mock.toggleRecording s = s := by
  simp [Mock.toggleRecording, h]

/-- C2 witness: the no-op at the initial (disconnected) state. -/
theorem toggle_disconnected_noop_witness :
    Mock.initState.isConnected = false
      ∧ Mock.toggleRecording Mock.initState = Mock.initState :=
  ⟨rfl, toggle_disconnected_noop Mock.initState rfl⟩

/-- C3 (counterexample): after `handleDisconnect` the appended system
entry has text `"Disconnected."` (with a trailing period), so no entry
with text exactly `"Disconnected"` is ever appended. -/
theorem disconnect_appends_period_text :
    ((Mock.handleDisconnect 0 Mock.initState).transcript.map Mock.Message.text)
      = ["Disconnected."]
    ∧ ¬ ∃ m ∈ (Mock.handleDisconnect 0 Mock.initState).transcript,
        m.text = "Disconnected" := by
  decide

/-- C3 (amended): from every state, `handleDisconnect` cancels any running
sampler interval, resets the audio level to 0, resets the conversation
state to `idle`, and appends exactly one system utterance, whose text is
`"Disconnected."`. -/
theorem disconnect_resets_and_appends (s : Mock.AppState) (now : Nat) :
    (Mock.handleDisconnect now s).intervalActive = false
    ∧ (Mock.handleDisconnect now s).audioLevel = 0
    ∧ (Mock.handleDisconnect now s).botState = .idle
    ∧ (Mock.handleDisconnect now s).transcript
        = s.transcript
          ++ [{ role := .system, text := "Disconnected.", timestamp := now }] := by
  simp [Mock.handleDisconnect, Mock.addMessage]

/-- C4 (counterexample): when the token fetch succeeds but
`room.connect` rejects, the catch block resets state to `idle` and
records the failure, but `roomRef` still holds the room constructed on
line 125: a half-registered handle remains. -/
theorem connect_transport_failure_keeps_handle :
    (LK.handleConnect (.gotToken (some "tok")) (some "socket error") 0
        LK.initState).botState = .idle
    ∧ ((LK.handleConnect (.gotToken (some "tok")) (some "socket error") 0
        LK.initState).transcript.map (fun m => (m.role, m.text)))
      = [(.system, "Connecting to Server..."),
         (.system, "Connection failed: socket error")]
    ∧ (LK.handleConnect (.gotToken (some "tok")) (some "socket error") 0
        LK.initState).roomRef = some .room := by
  decide

/-- C4 (amended): on every `handleConnect` failure the state returns to
`idle` and a system utterance records the failure; `roomRef` is left
unchanged on a credential-fetch failure or a missing/empty token, but on
a transport error during `room.connect` the freshly constructed room
handle remains registered in `roomRef`. -/
theorem connect_failures (s : LK.LKState) (now : Nat) (m : String)
    (ce : Option String) (tok : Option String) (t : String)
    (hfal : LK.jsFalsy tok = true) (ht : ¬ t = "") :
    ((LK.handleConnect (.fetchError m) ce now s).botState = .idle
      ∧ (LK.handleConnect (.fetchError m) ce now s).roomRef = s.roomRef
      ∧ (LK.handleConnect (.fetchError m) ce now s).transcript
          = s.transcript
            ++ [{ role := .system, text := "Connecting to Server...", timestamp := now },
                { role := .system, text := "Connection failed: " ++ m, timestamp := now }])
    ∧ ((LK.handleConnect (.gotToken tok) ce now s).botState = .idle
      ∧ (LK.handleConnect (.gotToken tok) ce now s).roomRef = s.roomRef
      ∧ (LK.handleConnect (.gotToken tok) ce now s).transcript
          = s.transcript
            ++ [{ role := .system, text := "Connecting to Server...", timestamp := now },
                { role := .system, text := "Connection failed: No token received",
                  timestamp := now }])
    ∧ ((LK.handleConnect (.gotToken (some t)) (some m) now s).botState = .idle
      ∧ (LK.handleConnect (.gotToken (some t)) (some m) now s).roomRef = some .room
      ∧ (LK.handleConnect (.gotToken (some t)) (some m) now s).transcript
          = s.transcript
            ++ [{ role := .system, text := "Connecting to Server...", timestamp := now },
                { role := .system, text := "Connection failed: " ++ m,
                  timestamp := now }]) := by
  refine ⟨?_, ?_, ?_⟩
  · simp [LK.handleConnect, LK.connectCatch, LK.addMessage]
  · simp [LK.handleConnect, LK.connectCatch, LK.addMessage, hfal]
  · simp [LK.handleConnect, LK.connectCatch, LK.addMessage, LK.jsFalsy, ht]

/-- C4 witness: the amended statement at the initial state, with a fetch
error `"boom"`, an absent token, and a non-empty token `"tok"` whose
transport connect rejects. -/
theorem connect_failures_witness :
    LK.jsFalsy none = true ∧ ¬ "tok" = ""
    ∧ (LK.handleConnect (.fetchError "boom") none 0 LK.initState).roomRef
        = LK.initState.roomRef
    ∧ (LK.handleConnect (.gotToken (some "tok")) (some "boom") 0
        LK.initState).roomRef = some .room := by
  refine ⟨rfl, by decide, ?_, ?_⟩
  · exact (connect_failures LK.initState 0 "boom" none none "tok" rfl (by decide)).1.2.1
  · exact (connect_failures LK.initState 0 "boom" none none "tok" rfl (by decide)).2.2.2.1

/-- C5 (counterexample): two successive `handleDisconnect` calls append
two `"Disconnected."` system entries — a duplicate beyond the first
transition edge. -/
theorem disconnect_twice_duplicates :
    ((Mock.handleDisconnect 1 (Mock.handleDisconnect 0
        Mock.initState)).transcript.map Mock.Message.text)
      = ["Disconnected.", "Disconnected."] := by
  decide

/-- C5 (amended): invoking `handleDisconnect` twice in succession raises
no error (the handler is a total function and the resulting state is a
well-formed `idle`, disconnected state), but each invocation appends its
own system `"Disconnected."` entry, so the second call does add a
duplicate entry beyond the first transition edge. -/
theorem disconnect_twice_appends_two (s : Mock.AppState) (t1 t2 : Nat) :
    (Mock.handleDisconnect t2 (Mock.handleDisconnect t1 s)).botState = .idle
    ∧ (Mock.handleDisconnect t2 (Mock.handleDisconnect t1 s)).isConnected = false
    ∧ (Mock.handleDisconnect t2 (Mock.handleDisconnect t1 s)).transcript
        = s.transcript
          ++ [{ role := .system, text := "Disconnected.", timestamp := t1 },
              { role := .system, text := "Disconnected.", timestamp := t2 }] := by
  simp [Mock.handleDisconnect, Mock.addMessage]

/-- C6: in the mocked variant, `handleDisconnect` does not cancel the
pending `setTimeout` callbacks of the speak toggle.  Concretely: from a
connected idle state, toggle (listening), toggle (processing, timer
scheduled), disconnect (state reset to `idle`, session disconnected, the
timer still pending); firing the pending timer then sets the state to
`speaking` and appends the user utterance while disconnected, and firing
its nested timer appends the bot utterance. -/
theorem stale_timers_fire_after_disconnect :
    (Mock.handleDisconnect 10 (Mock.toggleRecording (Mock.toggleRecording
        { Mock.initState with isConnected := true }))).isConnected = false
    ∧ (Mock.handleDisconnect 10 (Mock.toggleRecording (Mock.toggleRecording
        { Mock.initState with isConnected := true }))).botState = .idle
    ∧ (Mock.handleDisconnect 10 (Mock.toggleRecording (Mock.toggleRecording
        { Mock.initState with isConnected := true }))).pending
      = [.processingDone]
    ∧ (Mock.fireNextTimer 20 (Mock.handleDisconnect 10 (Mock.toggleRecording
        (Mock.toggleRecording
          { Mock.initState with isConnected := true })))).botState = .speaking
    ∧ (Mock.fireNextTimer 20 (Mock.handleDisconnect 10 (Mock.toggleRecording
        (Mock.toggleRecording
          { Mock.initState with isConnected := true })))).isConnected = false
    ∧ ((Mock.fireNextTimer 30 (Mock.fireNextTimer 20 (Mock.handleDisconnect 10
        (Mock.toggleRecording (Mock.toggleRecording
          { Mock.initState with isConnected := true }))))).transcript.map
        (fun m => (m.role, m.text)))
      = [(.system, "Disconnected."), (.user, Mock.userText),
         (.bot, Mock.botText)] := by
  decide

/-- C7: the synthetic sampler runs on a 100 ms interval, and every value
it writes is `0.3 + r * 0.7` for the draw `r` of `Math.random()`; for
every `r` in `[0, 1)` the written audio level lies in `[0.3, 1.0]`. -/
theorem sampler_tick_in_range (s : Mock.AppState) (r : ℚ)
    (h0 : 0 ≤ r) (h1 : r < 1) :
    Mock.samplerPeriodMs = 100
    ∧ (Mock.samplerTick r s).audioLevel = Mock.newLevel r
    ∧ 3/10 ≤ (Mock.samplerTick r s).audioLevel
    ∧ (Mock.samplerTick r s).audioLevel ≤ 1 := by
  refine ⟨rfl, rfl, ?_, ?_⟩ <;>
    simp only [Mock.samplerTick, Mock.newLevel] <;> linarith

/-- C7 witness: the tick bound at the concrete draw `r = 1/2`. -/
theorem sampler_tick_in_range_witness :
    (0 : ℚ) ≤ 1/2 ∧ (1/2 : ℚ) < 1
    ∧ (Mock.samplerPeriodMs = 100
      ∧ (Mock.samplerTick (1/2) Mock.initState).audioLevel = Mock.newLevel (1/2)
      ∧ 3/10 ≤ (Mock.samplerTick (1/2) Mock.initState).audioLevel
      ∧ (Mock.samplerTick (1/2) Mock.initState).audioLevel ≤ 1) :=
  ⟨by norm_num, by norm_num,
    sampler_tick_in_range Mock.initState (1/2) (by norm_num) (by norm_num)⟩

/-- C8: `handleDisconnect` never clears the transcript — the resulting
log is exactly the old log with entries appended at the end, so every
utterance present before is still present, unmodified and in order. -/
theorem disconnect_only_appends (s : Mock.AppState) (now : Nat) :
    ∃ appended, (Mock.handleDisconnect now s).transcript
      = s.transcript ++ appended :=
  ⟨[{ role := .system, text := "Disconnected.", timestamp := now }],
    by simp [Mock.handleDisconnect, Mock.addMessage]⟩

/-- C9: `addMessage` grows the transcript by exactly one entry, and the
`lastMessage` read (`transcript[transcript.length - 1]`) performed just
afterwards returns exactly the appended utterance. -/
theorem append_then_last (s : Mock.AppState) (role : Mock.Role)
    (text : String) (now : Nat) :
    (Mock.addMessage role text now s).transcript.length
        = s.transcript.length + 1
    ∧ Mock.lastMessage (Mock.addMessage role text now s)
        = some { role := role, text := text, timestamp := now } := by
  constructor
  · simp [Mock.addMessage]
  · simp [Mock.lastMessage, Mock.addMessage]

/-- C10: the token route returns `{ accessToken }` exactly when both
credentials are present (set and non-empty), and status 500 with
`{ error }` when either is missing; every issued token grants join,
publish and subscribe on the fixed room `"voice-bot-room"` and carries
the server-generated identity `"user-" ++ suffix`. -/
theorem token_route_spec (apiKey apiSecret : Option String)
    (suffix : String) :
    (LK.jsFalsy apiKey = false ∧ LK.jsFalsy apiSecret = false →
      TokenApi.GET apiKey apiSecret suffix
        = .ok { identity := "user-" ++ suffix, roomJoin := true,
                room := "voice-bot-room", canPublish := true,
                canSubscribe := true })
    ∧ (LK.jsFalsy apiKey = true ∨ LK.jsFalsy apiSecret = true →
      TokenApi.GET apiKey apiSecret suffix
        = .err 500 "Server misconfigured") := by
  constructor
  · rintro ⟨h1, h2⟩
    simp [TokenApi.GET, h1, h2]
  · rintro (h | h) <;> simp [TokenApi.GET, h]

/-- C10 witness: a success case with both credentials present and an
error case with the key missing. -/
theorem token_route_spec_witness :
    (LK.jsFalsy (some "k") = false ∧ LK.jsFalsy (some "s") = false)
    ∧ (LK.jsFalsy (none : Option String) = true
        ∨ LK.jsFalsy (some "s") = true)
    ∧ TokenApi.GET (some "k") (some "s") "abc"
        = .ok { identity := "user-abc", roomJoin := true,
                room := "voice-bot-room", canPublish := true,
                canSubscribe := true }
    ∧ TokenApi.GET none (some "s") "abc" = .err 500 "Server misconfigured" := by
  refine ⟨⟨by decide, by decide⟩, Or.inl rfl, ?_, ?_⟩
  · exact (token_route_spec (some "k") (some "s") "abc").1 ⟨by decide, by decide⟩
  · exact (token_route_spec none (some "s") "abc").2 (Or.inl rfl)
